import Mathlib

/-
Verification development for the PanKbase functional-data demo core:
a shallow embedding in Lean of the data-merge engine (app/services/data_loader.py,
DataLoader._create_merged_dataframe), the filter engine
(app/services/filter_service.py, FilterService), the type-inference and
association engine (app/services/analysis_service.py, AnalysisService) and the
Fisher confidence-interval formula (app/utils/statistics.py and
AnalysisService._correlation), together with theorems about them.

Modelling conventions:
- a data-frame cell is an Option Value, none standing for a pandas null (NaN);
- machine floats returned by the external statistical libraries (scipy,
  statsmodels, numpy) are modelled as rationals, and the library calls
  themselves (pearsonr, f_oneway, kruskal, OLS.fit, np.sqrt/arctanh/tanh)
  are parameters collected in a StatKernels record, since those libraries are
  external collaborators of the core; a library call that raises is a kernel
  returning none, matching the try/except in _analyze_association;
- the ideal real-valued content of the Fisher z confidence interval
  (AnalysisService._correlation lines 331-336) is embedded separately over
  the real numbers as fisherCILower/fisherCIUpper.
-/

/-- A scalar cell value of a frame: a Python string, number or boolean.
Numbers (ints and IEEE floats) are modelled as rationals. -/
inductive Value where
  | str (s : String)
  | num (q : ℚ)
  | bool (b : Bool)
deriving DecidableEq, Repr

/-- Python equality (==) between two cell values, as used by pandas masks,
set membership and groupby keys.  In Python, True == 1 == 1.0 and
False == 0 == 0.0, while strings never compare equal to numbers or booleans. -/
def valEq : Value → Value → Bool
  | Value.str a, Value.str b => a == b
  | Value.num a, Value.num b => a == b
  | Value.bool a, Value.bool b => a == b
  | Value.num a, Value.bool b => if b then a == 1 else a == 0
  | Value.bool a, Value.num b => if a then b == 1 else b == 0
  | _, _ => false

/-- Join-key equality used by pandas merge and groupby: ordinary Python
equality on values, with the pandas peculiarity that null join keys match
each other in merges. -/
def keyEq : Option Value → Option Value → Bool
  | none, none => true
  | some a, some b => valEq a b
  | _, _ => false

/-- The canonical representative of a value under Python equality: the
booleans True and False collapse onto the numbers 1 and 0. -/
def pyRep : Value → Value
  | Value.bool b => Value.num (if b then 1 else 0)
  | v => v

/-- Digits of a decimal literal to a natural number. -/
def digitsToNat (cs : List Char) : Nat :=
  cs.foldl (fun acc c => acc * 10 + (c.toNat - 48)) 0

/-- ASCII decimal digit test. -/
def isDigitChar (c : Char) : Bool := 48 ≤ c.toNat && c.toNat ≤ 57

/-- All characters are decimal digits. -/
def allDigits (cs : List Char) : Bool := cs.all isDigitChar

/-- ASCII whitespace, as stripped by float() before parsing. -/
def isSpaceChar (c : Char) : Bool :=
  c == ' ' || c == '\t' || c == '\n' || c == '\r'

/-- Strip leading and trailing whitespace from a character list. -/
def trimChars (cs : List Char) : List Char :=
  ((cs.dropWhile isSpaceChar).reverse.dropWhile isSpaceChar).reverse

/-- Parse a plain decimal literal (optional sign, digits, optional fractional
part) to a rational, as float() / pd.to_numeric coercion does on strings.
Exponent forms and inf/nan spellings are not modelled; no claim below
depends on them. -/
def parseRat (s : String) : Option ℚ :=
  let cs0 := trimChars s.data
  let neg : Bool :=
    match cs0 with
    | c :: _ => c == '-'
    | [] => false
  let cs : List Char :=
    match cs0 with
    | c :: rest => if c == '-' || c == '+' then rest else cs0
    | [] => []
  let ip := cs.takeWhile (fun c => c != '.')
  let dotAndFrac := cs.dropWhile (fun c => c != '.')
  let mk : ℚ → Option ℚ := fun q => some (if neg then -q else q)
  match dotAndFrac with
  | [] => if ip.length > 0 && allDigits ip then mk (digitsToNat ip : ℚ) else none
  | _ :: fp =>
    if fp.contains '.' then none
    else if (ip.length + fp.length > 0) && allDigits ip && allDigits fp then
      mk ((digitsToNat ip : ℚ) + (digitsToNat fp : ℚ) / ((10 : ℚ) ^ fp.length))
    else none

/-- Element-wise pd.to_numeric(..., errors=coerce): numbers pass through,
booleans coerce to 1/0, strings are parsed, anything else becomes null. -/
def toNumeric : Value → Option ℚ
  | Value.num q => some q
  | Value.bool b => some (if b then 1 else 0)
  | Value.str s => parseRat s

/-- Python str() of a cell value, used for group labels, dummy-column names
and categorical filter matching.  The exact decimal rendering of non-integer
floats (str(0.5) and friends) is approximated by the rational rendering; no
claim below stringifies a non-integer number. -/
def valueToStr : Value → String
  | Value.str s => s
  | Value.bool b => if b then "True" else "False"
  | Value.num q => if q.den == 1 then toString q.num else toString q

/-- A row of a frame: bindings from column name to nullable cell value. -/
abbrev Row : Type := List (String × Option Value)

/-- Cell lookup in a row: the first binding for the column name; a missing
binding reads as null. -/
def getCell (r : Row) (c : String) : Option Value :=
  match r.find? (fun p => p.1 == c) with
  | some p => p.2
  | none => none

/-- A data frame: a column-name list and a list of rows. -/
structure Frame where
  cols : List String
  rows : List Row
deriving DecidableEq

/-- A named column of a frame, as a list of nullable cells in row order. -/
def colVals (df : Frame) (c : String) : List (Option Value) :=
  df.rows.map (fun r => getCell r c)

/-- Deduplication keeping the first occurrence of each equivalence class,
as pandas unique() / dict-key collection does: the head is kept and every
later equal element is dropped. -/
def uniqBy {α : Type} (eq : α → α → Bool) : List α → List α
  | [] => []
  | a :: as => a :: (uniqBy eq as).filter (fun b => !(eq a b))

/-- Lexicographic order on character lists by code point, as Python compares
strings. -/
def charsLe : List Char → List Char → Bool
  | [], _ => true
  | _ :: _, [] => false
  | a :: as, b :: bs =>
    if a.toNat < b.toNat then true
    else if b.toNat < a.toNat then false
    else charsLe as bs

/-- Lexicographic string order by code points. -/
def strLeB (a b : String) : Bool := charsLe a.data b.data

/- ===================== Merge Engine (data_loader.py) ===================== -/

/-- pandas left.merge(right, on=key, how=inner): for each left row in order,
one output row per matching right row, the output row reading the left
binding first.  Overlapping non-key column labels (which pandas would
suffix) are not renamed here; no claim below reads such a column. -/
def innerMergeOn (key : String) (left right : Frame) : Frame :=
  { cols := left.cols ++ right.cols.filter (fun c => !(left.cols.contains c)),
    rows := left.rows.flatMap (fun l =>
      (right.rows.filter (fun r => keyEq (getCell l key) (getCell r key))).map
        (fun m => l ++ m)) }

/-- The all-null padding appended to an unmatched left row by a left join:
every non-key right column reads as null. -/
def nullPad (key : String) (right : Frame) : Row :=
  (right.cols.filter (fun c => c != key)).map (fun c => (c, (none : Option Value)))

/-- pandas left.merge(right, on=key, how=left): like the inner merge, but a
left row with no match survives once, padded with nulls for right columns. -/
def leftMergeOn (key : String) (left right : Frame) : Frame :=
  { cols := left.cols ++ right.cols.filter (fun c => !(left.cols.contains c)),
    rows := left.rows.flatMap (fun l =>
      match right.rows.filter (fun r => keyEq (getCell l key) (getCell r key)) with
      | [] => [l ++ nullPad key right]
      | ms => ms.map (fun m => l ++ m)) }

/-- groupby(key).first().reset_index(): one row per distinct non-null key
value, holding for every other column the first non-null value within the
group.  pandas sorts the group keys; only the row order of the aggregated
frame depends on that, and no claim below observes it, so first-occurrence
order is kept. -/
def groupbyFirstRows (f : Frame) (key : String) : List Row :=
  let keys := uniqBy valEq (f.rows.filterMap (fun r => getCell r key))
  keys.map (fun k =>
    let grp := f.rows.filter (fun r => keyEq (getCell r key) (some k))
    (key, some k) ::
      (f.cols.filter (fun c => c != key)).map
        (fun c => (c, (grp.filterMap (fun r => getCell r c)).head?)))

/-- The frame groupby(key).first().reset_index() evaluates to. -/
def groupbyFirst (f : Frame) (key : String) : Frame :=
  { cols := key :: f.cols.filter (fun c => c != key),
    rows := groupbyFirstRows f key }

/-- df.rename(columns=...) as a total renaming function on column labels. -/
def renameFrame (g : String → String) (f : Frame) : Frame :=
  { cols := f.cols.map g,
    rows := f.rows.map (fun r => (r : List (String × Option Value)).map (fun p => (g p.1, p.2))) }

/-- The rename Donors to Accession applied by _create_merged_dataframe to
the aggregated biosample view. -/
def renameDonorsAccession (c : String) : String :=
  if c == "Donors" then "Accession" else c

/-- The namespacing rename of _create_merged_dataframe: every aggregated
biosample column except the Accession key receives the biosample marker. -/
def renameBiosampleNs (c : String) : String :=
  if c == "Accession" then c else "biosample_" ++ c

/-- The aggregated, renamed biosample view of _create_merged_dataframe:
group by the Donors column taking first records, rename Donors to Accession,
then namespace every other column with the biosample marker. -/
def biosampleByDonor (bio : Frame) : Frame :=
  renameFrame renameBiosampleNs (renameFrame renameDonorsAccession (groupbyFirst bio "Donors"))

/-- DataLoader._create_merged_dataframe: inner-join donors with traits on
RRID, then (when a biosample source is present) left-join the aggregated
biosample view on Accession. -/
def createMergedDataframe (donorDf traitsDf : Frame) (biosampleDf : Option Frame) : Frame :=
  let merged := innerMergeOn "RRID" donorDf traitsDf
  match biosampleDf with
  | some bio => leftMergeOn "Accession" merged (biosampleByDonor bio)
  | none => merged

/- ===================== Filter Engine (filter_service.py) ===================== -/

/-- Range filter for numerical values (schemas.RangeFilter): optional
inclusive bounds. -/
structure RangeFilter where
  min_value : Option ℚ
  max_value : Option ℚ
deriving DecidableEq

/-- FilterRequest (schemas.FilterRequest): the fields read by FilterService.
A none field models an absent (null) field of the request. -/
structure FilterRequest where
  gender : Option (List String)
  collections : Option (List String)
  diabetes_status : Option (List String)
  ethnicities : Option (List String)
  cause_of_death : Option (List String)
  donation_type : Option (List String)
  isolation_center : Option (List String)
  age_range : Option RangeFilter
  bmi_range : Option RangeFilter
  hba1c_range : Option RangeFilter
  diabetes_duration_range : Option RangeFilter
  c_peptide_range : Option RangeFilter
  purity_range : Option RangeFilter
  viability_range : Option RangeFilter
  islet_yield_range : Option RangeFilter
  aab_gada_positive : Option Bool
  aab_ia2_positive : Option Bool
  aab_iaa_positive : Option Bool
  aab_znt8_positive : Option Bool
  multi_aab : Option Bool
deriving DecidableEq

/-- The request with every field absent. -/
def emptyFilterRequest : FilterRequest :=
  { gender := none, collections := none, diabetes_status := none,
    ethnicities := none, cause_of_death := none, donation_type := none,
    isolation_center := none, age_range := none, bmi_range := none,
    hba1c_range := none, diabetes_duration_range := none,
    c_peptide_range := none, purity_range := none, viability_range := none,
    islet_yield_range := none, aab_gada_positive := none,
    aab_ia2_positive := none, aab_iaa_positive := none,
    aab_znt8_positive := none, multi_aab := none }

/-- categorical_mappings of _apply_categorical_filters, with each filter
field value taken from the request. -/
def categoricalMappings (req : FilterRequest) : List (Option (List String) × String) :=
  [(req.gender, "Gender"),
   (req.collections, "Collections"),
   (req.diabetes_status, "Description of diabetes status"),
   (req.ethnicities, "Ethnicities"),
   (req.cause_of_death, "Cause of Death"),
   (req.donation_type, "Donation Type"),
   (req.isolation_center, "biosample_Isolation_center")]

/-- numerical_mappings of _apply_numerical_filters. -/
def numericalMappings (req : FilterRequest) : List (Option RangeFilter × String) :=
  [(req.age_range, "Age (years)"),
   (req.bmi_range, "BMI"),
   (req.hba1c_range, "HbA1C (percentage)"),
   (req.diabetes_duration_range, "Diabetes Duration (years)"),
   (req.c_peptide_range, "C-Peptide (ng/ml)"),
   (req.purity_range, "biosample_Purity (Percentage)"),
   (req.viability_range, "biosample_Prep Viability (percentage)"),
   (req.islet_yield_range, "biosample_Islet Yield (IEQ)")]

/-- boolean_mappings of _apply_boolean_filters. -/
def booleanMappings (req : FilterRequest) : List (Option Bool × String) :=
  [(req.aab_gada_positive, "AAB GADA POSITIVE"),
   (req.aab_ia2_positive, "AAB IA2 POSITIVE"),
   (req.aab_iaa_positive, "AAB IAA POSITIVE"),
   (req.aab_znt8_positive, "AAB ZNT8 POSITIVE"),
   (req.multi_aab, "Multi AAB")]

/-- match_value of _apply_categorical_filters: a null cell never matches;
otherwise str(val).lower().strip() is looked up in the lower-cased,
stripped accepted values. -/
def catMatch (vs : List String) (col : String) (r : Row) : Bool :=
  match getCell r col with
  | none => false
  | some v => (vs.map (fun s => s.toLower.trim)).contains (valueToStr v).toLower.trim

/-- One step of the _apply_categorical_filters loop as a total row
predicate: an absent or empty accepted-value list, or a column missing from
the frame, filters nothing (the row predicate is true).  Filtering a list by
the constant-true predicate keeps it unchanged, so folding these total
predicates equals the conditional df = df[mask] updates of the source. -/
def catStep (dfCols : List String) (pr : Option (List String) × String) (r : Row) : Bool :=
  match pr.1 with
  | none => true
  | some vs =>
    if vs.isEmpty then true
    else if dfCols.contains pr.2 then catMatch vs pr.2 r else true

/-- value >= m on a nullable cell, as a pandas comparison: null compares
false; the mapped columns are numeric (converted at load), so only numeric
cells can satisfy a bound. -/
def cellGE (cell : Option Value) (m : ℚ) : Bool :=
  match cell with
  | some (Value.num q) => m ≤ q
  | _ => false

/-- value <= m on a nullable cell, null comparing false. -/
def cellLE (cell : Option Value) (m : ℚ) : Bool :=
  match cell with
  | some (Value.num q) => q ≤ m
  | _ => false

/-- One step of the _apply_numerical_filters loop as a total row predicate.
A present RangeFilter object is always truthy in the source, so the branch
is entered whenever the field is present and the column exists; each given
bound is applied independently, and a RangeFilter carrying neither bound
applies no comparison at all. -/
def numStep (dfCols : List String) (pr : Option RangeFilter × String) (r : Row) : Bool :=
  match pr.1 with
  | none => true
  | some rf =>
    if dfCols.contains pr.2 then
      (match rf.min_value with
       | none => true
       | some m => cellGE (getCell r pr.2) m) &&
      (match rf.max_value with
       | none => true
       | some m => cellLE (getCell r pr.2) m)
    else true

/-- Cell == target on a nullable cell (pandas elementwise ==): null compares
false, a boolean cell compares by value, and a numeric 1/0 cell equals
True/False under Python equality. -/
def cellEqBool (cell : Option Value) (b : Bool) : Bool :=
  match cell with
  | none => false
  | some v => valEq v (Value.bool b)

/-- One step of the _apply_boolean_filters loop as a total row predicate. -/
def boolStep (dfCols : List String) (pr : Option Bool × String) (r : Row) : Bool :=
  match pr.1 with
  | none => true
  | some b => if dfCols.contains pr.2 then cellEqBool (getCell r pr.2) b else true

/-- Sequential filtering of a row list by the per-mapping predicates. -/
def foldFilters {α : Type} (step : α → Row → Bool) (rows : List Row) (l : List α) : List Row :=
  l.foldl (fun rs pr => rs.filter (step pr)) rows

/-- FilterService._apply_categorical_filters. -/
def applyCategoricalFilters (df : Frame) (req : FilterRequest) : Frame :=
  { cols := df.cols, rows := foldFilters (catStep df.cols) df.rows (categoricalMappings req) }

/-- FilterService._apply_numerical_filters. -/
def applyNumericalFilters (df : Frame) (req : FilterRequest) : Frame :=
  { cols := df.cols, rows := foldFilters (numStep df.cols) df.rows (numericalMappings req) }

/-- FilterService._apply_boolean_filters. -/
def applyBooleanFilters (df : Frame) (req : FilterRequest) : Frame :=
  { cols := df.cols, rows := foldFilters (boolStep df.cols) df.rows (booleanMappings req) }

/-- FilterService.apply_filters, parameterised by the frame it reads (the
source reads the cached merged frame): categorical, then numerical, then
boolean filters. -/
def applyFilters (df : Frame) (req : FilterRequest) : Frame :=
  applyBooleanFilters (applyNumericalFilters (applyCategoricalFilters df req) req) req

/- ===================== Type Inference (analysis_service.py) ===================== -/

/-- enums.VariableType. -/
inductive VariableType where
  | categorical
  | numerical
  | boolean
deriving DecidableEq, Repr

/-- enums.AnalysisMethod. -/
inductive AnalysisMethod where
  | linear_regression
  | logistic_regression
  | correlation
  | anova
  | kruskal_wallis
deriving DecidableEq, Repr

/-- Membership of a value in the Python set literal of True and False, under
Python equality: booleans themselves, and the numbers 1 and 0 (since in
Python True == 1 and False == 0, and set membership uses ==). -/
def isPyBool (v : Value) : Bool :=
  valEq v (Value.bool true) || valEq v (Value.bool false)

/-- Count of non-null entries of a series. -/
def nonNullCount (series : List (Option Value)) : Nat :=
  (series.filterMap id).length

/-- Count of entries that survive pd.to_numeric coercion. -/
def numericCount (series : List (Option Value)) : Nat :=
  (series.filterMap (fun ov => ov.bind toNumeric)).length

/-- AnalysisService._infer_variable_type.  The series.dtype == bool disjunct
of the source is subsumed by the set test: a bool-dtype series contains only
booleans, which are members of the True/False set.  The numeric-fraction
comparison numeric/non_null > 0.8 is carried out exactly over the
rationals; for the count sizes at hand the IEEE double evaluation of the
source decides every case identically. -/
def inferVariableType (series : List (Option Value)) : VariableType :=
  if (series.filterMap id).all isPyBool then VariableType.boolean
  else if nonNullCount series > 0 && numericCount series * 5 > nonNullCount series * 4 then
    VariableType.numerical
  else VariableType.categorical

/-- Modelled from the words of the claim for comparison with the source
(claim C5): boolean when all non-null values are drawn from the two boolean
values proper; otherwise numerical exactly when there is a non-null value
and the numeric-coercion fraction exceeds 0.8; otherwise categorical. -/
def claimedVariableType (series : List (Option Value)) : VariableType :=
  if (series.filterMap id).all
      (fun v => v = Value.bool true ∨ v = Value.bool false) then VariableType.boolean
  else if nonNullCount series > 0 && numericCount series * 5 > nonNullCount series * 4 then
    VariableType.numerical
  else VariableType.categorical

/-- Amended reading of claim C5, modelled from the amended words: boolean
when all non-null values are drawn from the True/False set under Python
equality, which adds the numbers 1 and 0 to the two booleans; the numerical
and categorical cases are unchanged. -/
def amendedVariableType (series : List (Option Value)) : VariableType :=
  if (series.filterMap id).all
      (fun v => v ∈ [Value.bool true, Value.bool false, Value.num 1, Value.num 0]) then
    VariableType.boolean
  else if nonNullCount series > 0 && numericCount series * 5 > nonNullCount series * 4 then
    VariableType.numerical
  else VariableType.categorical

/- ===================== Association Engine (analysis_service.py) ===================== -/

/-- schemas.AssociationResult.  Floats are modelled as rationals; fields the
source leaves as None are none. -/
structure AssociationResult where
  trait : String
  variableName : String
  coefficient : Option ℚ
  std_error : Option ℚ
  p_value : Option ℚ
  ci_lower : Option ℚ
  ci_upper : Option ℚ
  r_squared : Option ℚ
  n_samples : Nat
  method : String
deriving DecidableEq, Repr

/-- The outputs read from a fitted statsmodels OLS model: per-design-column
parameter, standard error, p-value and confidence bounds (aligned with the
design column list), plus the overall r-squared. -/
structure OLSFit where
  params : List ℚ
  bse : List ℚ
  pvalues : List ℚ
  ciLower : List ℚ
  ciUpper : List ℚ
  rsquared : ℚ
deriving DecidableEq, Repr

/-- The external statistical library calls, as parameters of the embedding:
scipy.stats.pearsonr, f_oneway and kruskal, statsmodels OLS(...).fit(), and
the numpy float functions sqrt, arctanh and tanh used by _correlation.
A call that raises is modelled as returning none. -/
structure StatKernels where
  pearsonr : List ℚ → List ℚ → Option (ℚ × ℚ)
  f_oneway : List (List ℚ) → Option (ℚ × ℚ)
  kruskal : List (List ℚ) → Option (ℚ × ℚ)
  ols : List (String × List ℚ) → List ℚ → Option OLSFit
  sqrtF : ℚ → ℚ
  arctanhF : ℚ → ℚ
  tanhF : ℚ → ℚ

/-- The group label of a cell under .astype(str): a null stringifies to the
nan label. -/
def groupLabel (ov : Option Value) : String :=
  match ov with
  | none => "nan"
  | some v => valueToStr v

/-- The group value lists built by _anova and _kruskal_wallis: for each
distinct group label of the variable column (in order of appearance,
skipping the nan label), the numeric trait values of the rows of that group
after dropping nulls; groups with fewer than 2 members are dropped. -/
def anovaGroupData (df : Frame) (trait varName : String) : List (List ℚ) :=
  let pairs := df.rows.map (fun r => (groupLabel (getCell r varName), (getCell r trait).bind toNumeric))
  let names := uniqBy (fun a b => a == b) (pairs.map (fun p => p.1))
  (names.filter (fun g => g != "nan")).filterMap (fun g =>
    let vals := pairs.filterMap (fun p => if p.1 == g then p.2 else none)
    if vals.length ≥ 2 then some vals else none)

/-- AnalysisService._anova. -/
def anova (K : StatKernels) (df : Frame) (trait varName : String) : Option AssociationResult :=
  let gd := anovaGroupData df trait varName
  if gd.length < 2 then none
  else
    match K.f_oneway gd with
    | none => none
    | some (fStat, pValue) =>
      some { trait := trait, variableName := varName, coefficient := some fStat,
             std_error := none, p_value := some pValue, ci_lower := none,
             ci_upper := none, r_squared := none,
             n_samples := (gd.map List.length).sum, method := "anova" }

/-- AnalysisService._kruskal_wallis: identical grouping policy, kruskal
statistic. -/
def kruskalWallis (K : StatKernels) (df : Frame) (trait varName : String) : Option AssociationResult :=
  let gd := anovaGroupData df trait varName
  if gd.length < 2 then none
  else
    match K.kruskal gd with
    | none => none
    | some (hStat, pValue) =>
      some { trait := trait, variableName := varName, coefficient := some hStat,
             std_error := none, p_value := some pValue, ci_lower := none,
             ci_upper := none, r_squared := none,
             n_samples := (gd.map List.length).sum, method := "kruskal_wallis" }

/-- AnalysisService._correlation: coerce both columns to numeric, keep rows
where both are non-null, require at least 10, call pearsonr, then compute
the Fisher-transform confidence interval with the hardcoded 1.96 critical
value through the numpy float kernels. -/
def correlation (K : StatKernels) (df : Frame) (trait varName : String) : Option AssociationResult :=
  let x := (colVals df varName).map (fun ov => ov.bind toNumeric)
  let y := (colVals df trait).map (fun ov => ov.bind toNumeric)
  let idx := (List.range df.rows.length).filter
    (fun i => (x.getD i none).isSome && (y.getD i none).isSome)
  let xv := idx.map (fun i => (x.getD i none).getD 0)
  let yv := idx.map (fun i => (y.getD i none).getD 0)
  if xv.length < 10 then none
  else
    match K.pearsonr xv yv with
    | none => none
    | some (r, pValue) =>
      let n := xv.length
      let z := K.arctanhF r
      let se := 1 / K.sqrtF ((n : ℚ) - 3)
      some { trait := trait, variableName := varName, coefficient := some r,
             std_error := some se, p_value := some pValue,
             ci_lower := some (K.tanhF (z - 196/100 * se)),
             ci_upper := some (K.tanhF (z + 196/100 * se)),
             r_squared := some (r * r), n_samples := n, method := "correlation" }

/-- Orderings a homogeneous level list is sorted by in pd.get_dummies:
strings lexicographically, numbers numerically, False before True; a
mixed-type level list would raise in Python 3 (the pair is then dropped by
the try/except) and is ordered here by constructor rank for totality. -/
def valueLe (a b : Value) : Bool :=
  match a, b with
  | Value.num x, Value.num y => x ≤ y
  | Value.str x, Value.str y => strLeB x y
  | Value.bool x, Value.bool y => !x || y
  | Value.num _, _ => true
  | _, Value.num _ => false
  | Value.bool _, Value.str _ => true
  | Value.str _, Value.bool _ => false

/-- Insertion step for sorting level values. -/
def insertValAsc (a : Value) : List Value → List Value
  | [] => [a]
  | b :: bs => if valueLe a b then a :: b :: bs else b :: insertValAsc a bs

/-- Insertion sort of category levels. -/
def sortValues (l : List Value) : List Value :=
  l.foldr insertValAsc []

/-- The sorted distinct levels of a categorical column, as pd.get_dummies
computes them (nulls excluded). -/
def dummyLevels (vals : List (Option Value)) : List Value :=
  sortValues (uniqBy valEq (vals.filterMap id))

/-- pd.get_dummies(..., columns=[c], drop_first=True) for one column: one
0/1 column per level after dropping the first, named c_level; a null cell
gets 0 in every dummy column. -/
def dummyCols (c : String) (vals : List (Option Value)) : List (String × List (Option ℚ)) :=
  match dummyLevels vals with
  | [] => []
  | _ :: rest =>
    rest.map (fun lv =>
      (c ++ "_" ++ valueToStr lv,
       vals.map (fun ov =>
         match ov with
         | some v => some (if valEq v lv then (1 : ℚ) else 0)
         | none => some 0)))

/-- One iteration of the predictor-encoding loop of _linear_regression over
an original design column: a categorical column is replaced by its dummy
columns, which get_dummies appends after all current columns, while any
other column is numeric-coerced in place.  Tracking the in-place columns
and the appended dummy blocks separately reproduces the final column order
of the loop, since each later get_dummies call appends after the blocks
already appended. -/
def designStep (df : Frame) (acc : List (String × List (Option ℚ)) × List (String × List (Option ℚ)))
    (c : String) : List (String × List (Option ℚ)) × List (String × List (Option ℚ)) :=
  let vals := colVals df c
  if inferVariableType vals == VariableType.categorical then
    (acc.1, acc.2 ++ dummyCols c vals)
  else
    (acc.1 ++ [(c, vals.map (fun ov => ov.bind toNumeric))], acc.2)

/-- The encoded design matrix of _linear_regression over the original
predictor columns, before null-row dropping. -/
def buildDesign (df : Frame) (xCols : List String) : List (String × List (Option ℚ)) :=
  let p := xCols.foldl (designStep df) ([], [])
  p.1 ++ p.2

/-- statsmodels nonzero-constant-column test used by add_constant
(has_constant defaults to skip). -/
def isNonzeroConst (l : List ℚ) : Bool :=
  l.all (fun v => v == l.headD 0) && l.headD 0 != 0

/-- sm.add_constant: prepend a column of ones named const, unless some
column is already a nonzero constant. -/
def addConstant (cols : List (String × List ℚ)) (n : Nat) : List (String × List ℚ) :=
  if cols.any (fun col => isNonzeroConst col.2) then cols
  else ("const", List.replicate n (1 : ℚ)) :: cols

/-- The first list is a leading segment of the second. -/
def charsLead : List Char → List Char → Bool
  | [], _ => true
  | _ :: _, [] => false
  | a :: n, b :: h => a == b && charsLead n h

/-- The first list occurs contiguously inside the second. -/
def charsSub (n : List Char) : List Char → Bool
  | [] => n.isEmpty
  | b :: h => charsLead n (b :: h) || charsSub n h

/-- needle occurs in hay as a contiguous character substring (Python
substring membership, needle in hay). -/
def strContains (hay needle : String) : Bool :=
  charsSub needle.data hay.data

/-- AnalysisService._linear_regression.  The varType argument is passed by
the caller but never read by the source, which re-infers the type of every
predictor column; it is kept for fidelity. -/
def linearRegression (K : StatKernels) (df : Frame) (trait varName : String)
    (controls : List String) (varType : VariableType) : Option AssociationResult :=
  let _ := varType
  let y := (colVals df trait).map (fun ov => ov.bind toNumeric)
  let xCols := varName :: controls.filter (fun c => df.cols.contains c)
  let design := buildDesign df xCols
  let validIdx := (List.range df.rows.length).filter (fun i =>
    design.all (fun col => (col.2.getD i none).isSome) && (y.getD i none).isSome)
  let xFin := design.map (fun col => (col.1, validIdx.map (fun i => (col.2.getD i none).getD 0)))
  let yFin := validIdx.map (fun i => (y.getD i none).getD 0)
  if yFin.length < 10 then none
  else
    let xConst := addConstant xFin yFin.length
    match K.ols xConst yFin with
    | none => none
    | some fit =>
      let names := xConst.map (fun col => col.1)
      let varCols := names.filter (fun c => strContains c varName && c != "const")
      match varCols.head? with
      | none => none
      | some mainVar =>
        let i := names.indexOf mainVar
        some { trait := trait, variableName := varName,
               coefficient := some (fit.params.getD i 0),
               std_error := some (fit.bse.getD i 0),
               p_value := some (fit.pvalues.getD i 0),
               ci_lower := some (fit.ciLower.getD i 0),
               ci_upper := some (fit.ciUpper.getD i 0),
               r_squared := some fit.rsquared,
               n_samples := yFin.length, method := "linear_regression" }

/-- available_cols of _analyze_association: the trait, the variable and the
control variables, restricted to columns of the frame. -/
def availableCols (df : Frame) (trait varName : String) (controls : List String) : List String :=
  ([trait, varName] ++ controls).filter (fun c => df.cols.contains c)

/-- The rows of df[available_cols].dropna(): rows with no null among the
available columns. -/
def validRows (df : Frame) (trait varName : String) (controls : List String) : List Row :=
  df.rows.filter (fun r => (availableCols df trait varName controls).all
    (fun c => (getCell r c).isSome))

/-- The sub-frame analysis_df built by _analyze_association. -/
def analysisFrame (df : Frame) (trait varName : String) (controls : List String) : Frame :=
  { cols := availableCols df trait varName controls,
    rows := validRows df trait varName controls }

/-- AnalysisService._analyze_association: skip when a name is absent, build
the null-dropped sub-frame, require at least 10 rows, infer the variable
type from the full frame column, then dispatch on the method; the source
falls back to linear regression for the unhandled method value.  The
try/except around the dispatch is modelled by the kernels returning none. -/
def analyzeAssociation (K : StatKernels) (df : Frame) (trait varName : String)
    (controls : List String) (method : AnalysisMethod) : Option AssociationResult :=
  if !(df.cols.contains trait) || !(df.cols.contains varName) then none
  else
    let adf := analysisFrame df trait varName controls
    if adf.rows.length < 10 then none
    else
      let varType := inferVariableType (colVals df varName)
      match method with
      | AnalysisMethod.linear_regression => linearRegression K adf trait varName controls varType
      | AnalysisMethod.correlation => correlation K adf trait varName
      | AnalysisMethod.anova => anova K adf trait varName
      | AnalysisMethod.kruskal_wallis => kruskalWallis K adf trait varName
      | AnalysisMethod.logistic_regression => linearRegression K adf trait varName controls varType

/- ============== External Variable Merge (analysis_service.py) ============== -/

/-- schemas.ExternalDataRequest, restricted to the fields read by
run_external_data_analysis.  The external data maps a donor identifier to
named numeric values; a Python dict is modelled as a pair list whose keys
are distinct. -/
structure ExtDataRequest where
  filter_criteria : FilterRequest
  external_data : Option (List (String × List (String × ℚ)))
  variables_of_interest : List String
  control_variables : List String
  traits : Option (List String)
  analysis_method : AnalysisMethod

/-- The filter_summary dict of run_external_data_analysis; fields absent
from the early-return summaries are none. -/
structure AnalysisSummary where
  n_samples : Nat
  message : Option String
  traits_analyzed : Option Nat
  variables_analyzed : Option Nat
  external_variables : Option (List String)
deriving DecidableEq, Repr

/-- pd.DataFrame.from_dict(external_data, orient=index) with the index
named RRID and reset: one row per donor key, one column per distinct inner
variable name in order of first appearance, missing entries null. -/
def externalFrame (data : List (String × List (String × ℚ))) : Frame :=
  let cols := uniqBy (fun a b => a == b) (data.flatMap (fun p => p.2.map (fun kv => kv.1)))
  { cols := "RRID" :: cols,
    rows := data.map (fun p =>
      ("RRID", some (Value.str p.1)) ::
        cols.map (fun c => (c, (p.2.find? (fun kv => kv.1 == c)).map (fun kv => Value.num kv.2)))) }

/-- AnalysisService.run_external_data_analysis, parameterised by the merged
frame the filter service reads and by the trait column list of the loaded
traits source (DataLoader.get_trait_columns). -/
def runExternalDataAnalysis (K : StatKernels) (mergedDf : Frame) (allTraitCols : List String)
    (req : ExtDataRequest) : List AssociationResult × AnalysisSummary :=
  let filtered := applyFilters mergedDf req.filter_criteria
  if filtered.rows.length == 0 then
    ([], { n_samples := 0, message := some "No samples match filter criteria",
           traits_analyzed := none, variables_analyzed := none, external_variables := none })
  else
    match req.external_data with
    | none =>
      ([], { n_samples := 0, message := some "No external data provided",
             traits_analyzed := none, variables_analyzed := none, external_variables := none })
    | some data =>
      if data.isEmpty then
        ([], { n_samples := 0, message := some "No external data provided",
               traits_analyzed := none, variables_analyzed := none, external_variables := none })
      else
        let analysisDf := innerMergeOn "RRID" filtered (externalFrame data)
        if analysisDf.rows.length == 0 then
          ([], { n_samples := 0, message := some "No matching samples with external data",
                 traits_analyzed := none, variables_analyzed := none, external_variables := none })
        else
          let traitCols := match req.traits with
            | some ts => if ts.isEmpty then allTraitCols else ts
            | none => allTraitCols
          let availableTraits := traitCols.filter (fun t => analysisDf.cols.contains t)
          let results := req.variables_of_interest.flatMap (fun v =>
            if analysisDf.cols.contains v then
              availableTraits.filterMap (fun t =>
                analyzeAssociation K analysisDf t v req.control_variables req.analysis_method)
            else [])
          (results,
           { n_samples := analysisDf.rows.length, message := none,
             traits_analyzed := some availableTraits.length,
             variables_analyzed := some req.variables_of_interest.length,
             external_variables := some (data.map (fun p => p.1)) })

/- ========== Fisher z confidence interval (statistics.py, _correlation) ========== -/

/-- Real inverse hyperbolic tangent, np.arctanh on the open unit interval. -/
noncomputable def arctanhR (r : ℝ) : ℝ := Real.log ((1 + r) / (1 - r)) / 2

/-- The lower Fisher-transform confidence bound of _correlation
(tanh (arctanh r - 1.96 / sqrt (n - 3))) over the reals.  At r equal to 1
or -1 the source computes arctanh as an IEEE infinity which tanh maps back
to 1 or -1; the real-valued embedding makes that limit explicit, since
arctanhR is a junk value there. -/
noncomputable def fisherCILower (r : ℝ) (n : Nat) : ℝ :=
  if r ≤ -1 then -1
  else if 1 ≤ r then 1
  else Real.tanh (arctanhR r - 196 / 100 * (1 / Real.sqrt ((n : ℝ) - 3)))

/-- The upper Fisher-transform confidence bound of _correlation. -/
noncomputable def fisherCIUpper (r : ℝ) (n : Nat) : ℝ :=
  if r ≤ -1 then -1
  else if 1 ≤ r then 1
  else Real.tanh (arctanhR r + 196 / 100 * (1 / Real.sqrt ((n : ℝ) - 3)))

/- ===================== Concrete inputs for witnesses ===================== -/

/-- Constant statistical kernels used to evaluate the embedding at concrete
inputs: the OLS fit reports 10 times the design-column position as each
statistic, so the reported column is visible in the output. -/
def constKernels : StatKernels :=
  { pearsonr := fun _ _ => some (1/2, 1),
    f_oneway := fun _ => some (1, 1),
    kruskal := fun _ => some (1, 1),
    ols := fun cols _ =>
      some { params := (List.range cols.length).map (fun i => ((10 * i : ℕ) : ℚ)),
             bse := (List.range cols.length).map (fun i => ((10 * i : ℕ) : ℚ)),
             pvalues := (List.range cols.length).map (fun i => ((10 * i : ℕ) : ℚ)),
             ciLower := (List.range cols.length).map (fun i => ((10 * i : ℕ) : ℚ)),
             ciUpper := (List.range cols.length).map (fun i => ((10 * i : ℕ) : ℚ)),
             rsquared := 0 },
    sqrtF := fun q => q,
    arctanhF := fun q => q,
    tanhF := fun q => q }

/-- A donor source with one record per donor identifier. -/
def donorEx : Frame :=
  { cols := ["RRID", "Accession", "Age (years)"],
    rows := [
      [("RRID", some (Value.str "R1")), ("Accession", some (Value.str "A1")),
       ("Age (years)", some (Value.num 40))],
      [("RRID", some (Value.str "R2")), ("Accession", some (Value.str "A2")),
       ("Age (years)", none)]] }

/-- A trait source with one record per donor identifier. -/
def traitsEx : Frame :=
  { cols := ["RRID", "AUC"],
    rows := [
      [("RRID", some (Value.str "R1")), ("AUC", some (Value.num 3))],
      [("RRID", some (Value.str "R2")), ("AUC", some (Value.num 4))]] }

/-- A biosample source with two records for the same donor. -/
def bioEx : Frame :=
  { cols := ["Accession", "Donors", "Purity"],
    rows := [
      [("Accession", some (Value.str "B1")), ("Donors", some (Value.str "A1")),
       ("Purity", some (Value.num 90))],
      [("Accession", some (Value.str "B2")), ("Donors", some (Value.str "A1")),
       ("Purity", some (Value.num 80))],
      [("Accession", some (Value.str "B3")), ("Donors", some (Value.str "A2")),
       ("Purity", none)]] }

/-- A two-group, ten-row frame for the association-skip witness. -/
def assocEx : Frame :=
  { cols := ["T", "V"],
    rows := [
      [("T", some (Value.num 0)), ("V", some (Value.str "a"))],
      [("T", some (Value.num 1)), ("V", some (Value.str "a"))],
      [("T", some (Value.num 2)), ("V", some (Value.str "a"))],
      [("T", some (Value.num 3)), ("V", some (Value.str "a"))],
      [("T", some (Value.num 4)), ("V", some (Value.str "a"))],
      [("T", some (Value.num 5)), ("V", some (Value.str "b"))],
      [("T", some (Value.num 6)), ("V", some (Value.str "b"))],
      [("T", some (Value.num 7)), ("V", some (Value.str "b"))],
      [("T", some (Value.num 8)), ("V", some (Value.str "b"))],
      [("T", some (Value.num 9)), ("V", some (Value.str "b"))]] }

/-- The anova result the embedding produces on assocEx with constKernels. -/
def assocExResult : AssociationResult :=
  { trait := "T", variableName := "V", coefficient := some 1, std_error := none,
    p_value := some 1, ci_lower := none, ci_upper := none, r_squared := none,
    n_samples := 10, method := "anova" }

/-- A frame with a null-aged row and a valued-aged row. -/
def nullAgeFrame : Frame :=
  { cols := ["RRID", "Age (years)"],
    rows := [
      [("RRID", some (Value.str "R1")), ("Age (years)", none)],
      [("RRID", some (Value.str "R2")), ("Age (years)", some (Value.num 50))]] }

/-- The null-aged row of nullAgeFrame. -/
def nullAgeRow : Row :=
  [("RRID", some (Value.str "R1")), ("Age (years)", none)]

/-- The valued-aged row of nullAgeFrame. -/
def valuedAgeRow : Row :=
  [("RRID", some (Value.str "R2")), ("Age (years)", some (Value.num 50))]

/-- An age-range filter present with neither bound. -/
def unboundedAgeRequest : FilterRequest :=
  { emptyFilterRequest with age_range := some { min_value := none, max_value := none } }

/-- An age-range filter with a lower bound only. -/
def boundedAgeRequest : FilterRequest :=
  { emptyFilterRequest with age_range := some { min_value := some 1, max_value := none } }

/-- A numeric 0/1 series: not drawn from the booleans proper, fully numeric. -/
def zeroOneSeries : List (Option Value) := [some (Value.num 1), some (Value.num 0)]

/-- An all-null series. -/
def allNullSeries : List (Option Value) := [none, none]

/-- A frame where the variable of interest G is categorical and the control
G2 is numeric and contains the variable name as a substring. -/
def shadowEx : Frame :=
  { cols := ["T", "G", "G2"],
    rows := [
      [("T", some (Value.num 0)), ("G", some (Value.str "a")), ("G2", some (Value.num 0))],
      [("T", some (Value.num 1)), ("G", some (Value.str "b")), ("G2", some (Value.num 1))],
      [("T", some (Value.num 2)), ("G", some (Value.str "a")), ("G2", some (Value.num 2))],
      [("T", some (Value.num 3)), ("G", some (Value.str "b")), ("G2", some (Value.num 3))],
      [("T", some (Value.num 4)), ("G", some (Value.str "a")), ("G2", some (Value.num 4))],
      [("T", some (Value.num 5)), ("G", some (Value.str "b")), ("G2", some (Value.num 5))],
      [("T", some (Value.num 6)), ("G", some (Value.str "a")), ("G2", some (Value.num 6))],
      [("T", some (Value.num 7)), ("G", some (Value.str "b")), ("G2", some (Value.num 7))],
      [("T", some (Value.num 8)), ("G", some (Value.str "a")), ("G2", some (Value.num 8))],
      [("T", some (Value.num 9)), ("G", some (Value.str "b")), ("G2", some (Value.num 9))]] }

/-- A merged frame with two donors, for the external-data examples. -/
def extBaseFrame : Frame :=
  { cols := ["RRID", "T1"],
    rows := [
      [("RRID", some (Value.str "RRID:A")), ("T1", some (Value.num 1))],
      [("RRID", some (Value.str "RRID:C")), ("T1", some (Value.num 2))]] }

/-- An external-data request carrying one donor with one named variable. -/
def extRequest : ExtDataRequest :=
  { filter_criteria := emptyFilterRequest,
    external_data := some [("RRID:A", [("GCK", 5)])],
    variables_of_interest := ["GCK"],
    control_variables := [],
    traits := some ["T1"],
    analysis_method := AnalysisMethod.anova }

/-- An external map with two donors, one of which is in the frame. -/
def extData2 : List (String × List (String × ℚ)) :=
  [("RRID:A", [("GCK", 5)]), ("RRID:B", [("GCK", 6)])]

/-- The external-data request with the map absent. -/
def extRequestNone : ExtDataRequest :=
  { extRequest with external_data := none }

/- ===================== Filter monotonicity order ===================== -/

/-- A categorical field of the smaller criteria, when active (present and
non-empty), is present in the larger criteria with the same accepted
values. -/
def optListLe (small big : Option (List String)) : Prop :=
  ∀ vs, small = some vs → vs ≠ [] → big = some vs

/-- A range field of the smaller criteria, when present, is present in the
larger criteria with the same bounds. -/
def optRangeLe (small big : Option RangeFilter) : Prop :=
  ∀ rf, small = some rf → big = some rf

/-- A boolean field of the smaller criteria, when present, is present in
the larger criteria with the same target. -/
def optBoolLe (small big : Option Bool) : Prop :=
  ∀ b, small = some b → big = some b

/-- Criteria big contains every constraint of criteria small (and possibly
more): every active group of small is active in big with the same accepted
values, bounds or target. -/
def FilterExtends (big small : FilterRequest) : Prop :=
  optListLe small.gender big.gender ∧
  optListLe small.collections big.collections ∧
  optListLe small.diabetes_status big.diabetes_status ∧
  optListLe small.ethnicities big.ethnicities ∧
  optListLe small.cause_of_death big.cause_of_death ∧
  optListLe small.donation_type big.donation_type ∧
  optListLe small.isolation_center big.isolation_center ∧
  optRangeLe small.age_range big.age_range ∧
  optRangeLe small.bmi_range big.bmi_range ∧
  optRangeLe small.hba1c_range big.hba1c_range ∧
  optRangeLe small.diabetes_duration_range big.diabetes_duration_range ∧
  optRangeLe small.c_peptide_range big.c_peptide_range ∧
  optRangeLe small.purity_range big.purity_range ∧
  optRangeLe small.viability_range big.viability_range ∧
  optRangeLe small.islet_yield_range big.islet_yield_range ∧
  optBoolLe small.aab_gada_positive big.aab_gada_positive ∧
  optBoolLe small.aab_ia2_positive big.aab_ia2_positive ∧
  optBoolLe small.aab_iaa_positive big.aab_iaa_positive ∧
  optBoolLe small.aab_znt8_positive big.aab_znt8_positive ∧
  optBoolLe small.multi_aab big.multi_aab

/- ===================== Theorems: filter engine ===================== -/

/-- Membership in a sequentially filtered row list is membership in the
input together with satisfaction of every step predicate. -/
theorem mem_foldFilters {α : Type} (step : α → Row → Bool) (L : List α)
    (rows : List Row) (r : Row) :
    r ∈ foldFilters step rows L ↔ r ∈ rows ∧ ∀ pr ∈ L, step pr r = true := by
  induction L generalizing rows with
  | nil => simp [foldFilters]
  | cons a L ih =>
    have hstep : foldFilters step rows (a :: L) = foldFilters step (rows.filter (step a)) L := rfl
    rw [hstep, ih, List.mem_filter, List.forall_mem_cons]
    tauto

/-- Characterisation of apply_filters membership: a row of the output is a
row of the input satisfying every categorical, numerical and boolean step
predicate. -/
theorem mem_applyFilters (df : Frame) (req : FilterRequest) (r : Row) :
    r ∈ (applyFilters df req).rows ↔
      r ∈ df.rows ∧
      (∀ pr ∈ categoricalMappings req, catStep df.cols pr r = true) ∧
      (∀ pr ∈ numericalMappings req, numStep df.cols pr r = true) ∧
      (∀ pr ∈ booleanMappings req, boolStep df.cols pr r = true) := by
  have hrows : (applyFilters df req).rows = foldFilters (boolStep df.cols)
      (foldFilters (numStep df.cols)
        (foldFilters (catStep df.cols) df.rows (categoricalMappings req))
        (numericalMappings req)) (booleanMappings req) := by
    simp only [applyFilters, applyBooleanFilters, applyNumericalFilters, applyCategoricalFilters]
  rw [hrows, mem_foldFilters, mem_foldFilters, mem_foldFilters]
  exact ⟨fun h => ⟨h.1.1.1, h.1.1.2, h.1.2, h.2⟩, fun h => ⟨⟨⟨h.1, h.2.1⟩, h.2.2.1⟩, h.2.2.2⟩⟩

/-- A cell satisfying a lower bound is non-null. -/
theorem cellGE_isSome (c : Option Value) (m : ℚ) (h : cellGE c m = true) : c.isSome = true := by
  cases c with
  | none => simp [cellGE] at h
  | some v => rfl

/-- A cell satisfying an upper bound is non-null. -/
theorem cellLE_isSome (c : Option Value) (m : ℚ) (h : cellLE c m = true) : c.isSome = true := by
  cases c with
  | none => simp [cellLE] at h
  | some v => rfl

/-- A cell equal to a boolean target is non-null. -/
theorem cellEqBool_isSome (c : Option Value) (b : Bool) (h : cellEqBool c b = true) :
    c.isSome = true := by
  cases c with
  | none => simp [cellEqBool] at h
  | some v => rfl

/-- C3 counterexample: with the age-range filter present but carrying
neither a min nor a max, the row whose age is null is retained by
apply_filters, although the claim requires it to be excluded whenever the
numerical-range filter is active. -/
theorem filterNullRetainedCounterexample :
    unboundedAgeRequest.age_range = some { min_value := none, max_value := none } ∧
    getCell nullAgeRow "Age (years)" = none ∧
    nullAgeRow ∈ (applyFilters nullAgeFrame unboundedAgeRequest).rows := by
  refine ⟨rfl, rfl, ?_⟩
  rw [mem_applyFilters]
  refine ⟨by decide, ?_, ?_, ?_⟩ <;> decide

/-- C3 (amended): a row of the filter output is non-null in every column
under an active boolean constraint, and in every column under an active
numerical-range constraint that supplies at least one bound; a range filter
present with neither bound imposes no constraint. -/
theorem filterNullExclusion (df : Frame) (req : FilterRequest) (r : Row)
    (hr : r ∈ (applyFilters df req).rows) :
    (∀ rf col, (some rf, col) ∈ numericalMappings req → df.cols.contains col = true →
      (rf.min_value.isSome || rf.max_value.isSome) = true → (getCell r col).isSome = true) ∧
    (∀ b col, (some b, col) ∈ booleanMappings req → df.cols.contains col = true →
      (getCell r col).isSome = true) := by
  rw [mem_applyFilters] at hr
  obtain ⟨-, -, hnum, hbool⟩ := hr
  constructor
  · intro rf col hmem hcol hb
    have h := hnum (some rf, col) hmem
    simp only [numStep, hcol, if_true, Bool.and_eq_true] at h
    rcases (Bool.or_eq_true _ _).mp hb with hmin | hmax
    · rcases hm : rf.min_value with _ | m
      · rw [hm] at hmin; simp at hmin
      · have := h.1
        rw [hm] at this
        exact cellGE_isSome _ m this
    · rcases hm : rf.max_value with _ | m
      · rw [hm] at hmax; simp at hmax
      · have := h.2
        rw [hm] at this
        exact cellLE_isSome _ m this
  · intro b col hmem hcol
    have h := hbool (some b, col) hmem
    simp only [boolStep, hcol, if_true] at h
    exact cellEqBool_isSome _ b h

/-- Witness for the amended C3 theorem at a concrete frame and request:
the surviving row is non-null in the bounded age column. -/
theorem filterNullExclusionWitness :
    (getCell valuedAgeRow "Age (years)").isSome = true :=
  (filterNullExclusion nullAgeFrame boundedAgeRequest valuedAgeRow (by decide)).1
    { min_value := some 1, max_value := none } "Age (years)" (by decide) (by decide) (by decide)

/-- A categorical step of the larger criteria implies the same step of the
smaller criteria. -/
theorem catStep_mono (dfCols : List String) (o1 o2 : Option (List String)) (col : String)
    (r : Row) (hle : optListLe o1 o2) (h : catStep dfCols (o2, col) r = true) :
    catStep dfCols (o1, col) r = true := by
  rcases ho : o1 with _ | vs
  · rfl
  · by_cases hvs : vs.isEmpty
    · simp [catStep, hvs]
    · have h2 : o2 = some vs := hle vs ho (by intro he; rw [he] at hvs; simp at hvs)
      rw [h2] at h
      exact h

/-- A numerical step of the larger criteria implies the same step of the
smaller criteria. -/
theorem numStep_mono (dfCols : List String) (o1 o2 : Option RangeFilter) (col : String)
    (r : Row) (hle : optRangeLe o1 o2) (h : numStep dfCols (o2, col) r = true) :
    numStep dfCols (o1, col) r = true := by
  rcases ho : o1 with _ | rf
  · rfl
  · have h2 : o2 = some rf := hle rf ho
    rw [h2] at h
    exact h

/-- A boolean step of the larger criteria implies the same step of the
smaller criteria. -/
theorem boolStep_mono (dfCols : List String) (o1 o2 : Option Bool) (col : String)
    (r : Row) (hle : optBoolLe o1 o2) (h : boolStep dfCols (o2, col) r = true) :
    boolStep dfCols (o1, col) r = true := by
  rcases ho : o1 with _ | b
  · rfl
  · have h2 : o2 = some b := hle b ho
    rw [h2] at h
    exact h

/-- C4: filter monotonicity.  When the larger criteria contain every active
constraint of the smaller criteria (with the same accepted values, bounds
and targets), every row returned under the larger criteria is returned
under the smaller criteria. -/
theorem filterMonotone (df : Frame) (big small : FilterRequest) (r : Row)
    (hext : FilterExtends big small)
    (hr : r ∈ (applyFilters df big).rows) : r ∈ (applyFilters df small).rows := by
  rw [mem_applyFilters] at hr ⊢
  obtain ⟨hmem, hcat, hnum, hbool⟩ := hr
  obtain ⟨e1, e2, e3, e4, e5, e6, e7, e8, e9, e10, e11, e12, e13, e14, e15, e16, e17,
    e18, e19, e20⟩ := hext
  refine ⟨hmem, ?_, ?_, ?_⟩
  · intro pr hpr
    simp only [categoricalMappings, List.mem_cons, List.not_mem_nil, or_false] at hpr
    rcases hpr with rfl | rfl | rfl | rfl | rfl | rfl | rfl
    · exact catStep_mono _ _ _ _ _ e1 (hcat _ (by simp [categoricalMappings]))
    · exact catStep_mono _ _ _ _ _ e2 (hcat _ (by simp [categoricalMappings]))
    · exact catStep_mono _ _ _ _ _ e3 (hcat _ (by simp [categoricalMappings]))
    · exact catStep_mono _ _ _ _ _ e4 (hcat _ (by simp [categoricalMappings]))
    · exact catStep_mono _ _ _ _ _ e5 (hcat _ (by simp [categoricalMappings]))
    · exact catStep_mono _ _ _ _ _ e6 (hcat _ (by simp [categoricalMappings]))
    · exact catStep_mono _ _ _ _ _ e7 (hcat _ (by simp [categoricalMappings]))
  · intro pr hpr
    simp only [numericalMappings, List.mem_cons, List.not_mem_nil, or_false] at hpr
    rcases hpr with rfl | rfl | rfl | rfl | rfl | rfl | rfl | rfl
    · exact numStep_mono _ _ _ _ _ e8 (hnum _ (by simp [numericalMappings]))
    · exact numStep_mono _ _ _ _ _ e9 (hnum _ (by simp [numericalMappings]))
    · exact numStep_mono _ _ _ _ _ e10 (hnum _ (by simp [numericalMappings]))
    · exact numStep_mono _ _ _ _ _ e11 (hnum _ (by simp [numericalMappings]))
    · exact numStep_mono _ _ _ _ _ e12 (hnum _ (by simp [numericalMappings]))
    · exact numStep_mono _ _ _ _ _ e13 (hnum _ (by simp [numericalMappings]))
    · exact numStep_mono _ _ _ _ _ e14 (hnum _ (by simp [numericalMappings]))
    · exact numStep_mono _ _ _ _ _ e15 (hnum _ (by simp [numericalMappings]))
  · intro pr hpr
    simp only [booleanMappings, List.mem_cons, List.not_mem_nil, or_false] at hpr
    rcases hpr with rfl | rfl | rfl | rfl | rfl
    · exact boolStep_mono _ _ _ _ _ e16 (hbool _ (by simp [booleanMappings]))
    · exact boolStep_mono _ _ _ _ _ e17 (hbool _ (by simp [booleanMappings]))
    · exact boolStep_mono _ _ _ _ _ e18 (hbool _ (by simp [booleanMappings]))
    · exact boolStep_mono _ _ _ _ _ e19 (hbool _ (by simp [booleanMappings]))
    · exact boolStep_mono _ _ _ _ _ e20 (hbool _ (by simp [booleanMappings]))

/-- Witness for C4 at concrete criteria: the bounded age request extends the
empty request, so its surviving row also survives the empty request. -/
theorem filterMonotoneWitness :
    valuedAgeRow ∈ (applyFilters nullAgeFrame emptyFilterRequest).rows :=
  filterMonotone nullAgeFrame boundedAgeRequest emptyFilterRequest valuedAgeRow
    (by refine ⟨?_, ?_, ?_, ?_, ?_, ?_, ?_, ?_, ?_, ?_, ?_, ?_, ?_, ?_, ?_, ?_, ?_, ?_, ?_, ?_⟩ <;>
      simp [optListLe, optRangeLe, optBoolLe, emptyFilterRequest])
    (by decide)

/- ===================== Theorems: type inference ===================== -/

/-- Membership of a value in the Python set of True and False coincides with
structural membership in the four values True, False, 1 and 0. -/
theorem isPyBool_eq_mem (v : Value) :
    isPyBool v = decide (v ∈ [Value.bool true, Value.bool false, Value.num 1, Value.num 0]) := by
  cases v with
  | str s => simp [isPyBool, valEq]
  | num q =>
    by_cases h1 : q = 1
    · simp [isPyBool, valEq, h1]
    · by_cases h0 : q = 0 <;> simp [isPyBool, valEq, h0, h1]
  | bool b => cases b <;> simp [isPyBool, valEq]

/-- C5 counterexample: the column holding the numbers 1 and 0 is classified
boolean by the source (Python set membership identifies 1 with True and 0
with False), while the claim — whose boolean trigger is the two boolean
values proper, all numbers falling to the numeric branch — classifies it
numerical. -/
theorem inferTypeCounterexample :
    inferVariableType zeroOneSeries = VariableType.boolean ∧
    claimedVariableType zeroOneSeries = VariableType.numerical ∧
    VariableType.boolean ≠ VariableType.numerical := by decide

/-- C5 (amended): type inference returns boolean exactly when all non-null
values are drawn from the True/False set under Python equality — the two
booleans together with the numbers 1 and 0; otherwise it returns numerical
exactly when at least one non-null value exists and the fraction of
non-null values that coerce to a number exceeds 0.8; otherwise
categorical. -/
theorem inferTypeAmended (series : List (Option Value)) :
    inferVariableType series = amendedVariableType series := by
  have h : isPyBool = fun v =>
      decide (v ∈ [Value.bool true, Value.bool false, Value.num 1, Value.num 0]) :=
    funext isPyBool_eq_mem
  unfold inferVariableType amendedVariableType
  rw [h]

/-- C10: a column whose values are all null (in particular an empty column)
is classified boolean: the empty value set is a subset of the True/False
set, and the numerical branch needs a non-null value. -/
theorem inferTypeAllNull (series : List (Option Value)) (h : ∀ ov ∈ series, ov = none) :
    inferVariableType series = VariableType.boolean := by
  have hnil : series.filterMap id = [] := by
    rw [List.filterMap_eq_nil_iff]
    intro a ha
    exact h a ha
  unfold inferVariableType
  rw [hnil]
  rfl

/-- Witness for C10 at a concrete two-null column. -/
theorem inferTypeAllNullWitness : inferVariableType allNullSeries = VariableType.boolean :=
  inferTypeAllNull allNullSeries (by decide)

/- ===================== Theorems: association skip policy ===================== -/

/-- An anova result implies at least two usable groups. -/
theorem anova_groups_ge_two (K : StatKernels) (df : Frame) (trait varName : String)
    (res : AssociationResult) (h : anova K df trait varName = some res) :
    2 ≤ (anovaGroupData df trait varName).length := by
  unfold anova at h
  by_cases hlen : (anovaGroupData df trait varName).length < 2
  · rw [if_pos hlen] at h
    exact absurd h (by simp)
  · omega

/-- A kruskal-wallis result implies at least two usable groups. -/
theorem kruskal_groups_ge_two (K : StatKernels) (df : Frame) (trait varName : String)
    (res : AssociationResult) (h : kruskalWallis K df trait varName = some res) :
    2 ≤ (anovaGroupData df trait varName).length := by
  unfold kruskalWallis at h
  by_cases hlen : (anovaGroupData df trait varName).length < 2
  · rw [if_pos hlen] at h
    exact absurd h (by simp)
  · omega

/-- C2: an association result for a (variable, trait) pair is produced only
if both names are columns of the frame and the sub-frame restricted to the
trait, the variable and the controls present in the frame still has at
least 10 rows after dropping every row with a null among those columns; for
the group-based methods, additionally only if at least 2 groups of size at
least 2 remain.  Below these thresholds the evaluation returns none — no
result and, the embedding being total, no error. -/
theorem assocMinimumN (K : StatKernels) (df : Frame) (trait varName : String)
    (controls : List String) (method : AnalysisMethod) (res : AssociationResult)
    (h : analyzeAssociation K df trait varName controls method = some res) :
    df.cols.contains trait = true ∧ df.cols.contains varName = true ∧
    10 ≤ (validRows df trait varName controls).length ∧
    (method = AnalysisMethod.anova →
      2 ≤ (anovaGroupData (analysisFrame df trait varName controls) trait varName).length) ∧
    (method = AnalysisMethod.kruskal_wallis →
      2 ≤ (anovaGroupData (analysisFrame df trait varName controls) trait varName).length) := by
  unfold analyzeAssociation at h
  by_cases hc : (!(df.cols.contains trait) || !(df.cols.contains varName)) = true
  · rw [if_pos hc] at h
    exact absurd h (by simp)
  · rw [if_neg hc] at h
    simp only [Bool.or_eq_true, Bool.not_eq_true', not_or, Bool.not_eq_false] at hc
    by_cases hlen : (analysisFrame df trait varName controls).rows.length < 10
    · rw [if_pos hlen] at h
      exact absurd h (by simp)
    · rw [if_neg hlen] at h
      have hlen10 : 10 ≤ (validRows df trait varName controls).length := by
        have heq : (analysisFrame df trait varName controls).rows
            = validRows df trait varName controls := rfl
        rw [heq] at hlen
        omega
      refine ⟨hc.1, hc.2, hlen10, ?_, ?_⟩
      · intro hm
        rw [hm] at h
        exact anova_groups_ge_two K _ trait varName res h
      · intro hm
        rw [hm] at h
        exact kruskal_groups_ge_two K _ trait varName res h

/-- Witness for C2 at a concrete ten-row, two-group frame under the anova
method: the embedding produces a result and the thresholds hold. -/
theorem assocMinimumNWitness :
    10 ≤ (validRows assocEx "T" "V" []).length ∧
    2 ≤ (anovaGroupData (analysisFrame assocEx "T" "V" []) "T" "V").length := by
  have h : analyzeAssociation constKernels assocEx "T" "V" [] AnalysisMethod.anova
      = some assocExResult := by decide
  have h2 := assocMinimumN constKernels assocEx "T" "V" [] AnalysisMethod.anova assocExResult h
  exact ⟨h2.2.2.1, h2.2.2.2.1 rfl⟩

/- ===================== Theorems: Fisher confidence interval ===================== -/

/-- The hyperbolic tangent written through the exponential of twice the
argument. -/
theorem tanh_eq_exp (x : ℝ) :
    Real.tanh x = (Real.exp (2 * x) - 1) / (Real.exp (2 * x) + 1) := by
  rw [Real.tanh_eq_sinh_div_cosh, Real.sinh_eq, Real.cosh_eq]
  have h1 : Real.exp x ≠ 0 := (Real.exp_pos x).ne'
  have h2 : Real.exp (2 * x) = Real.exp x * Real.exp x := by
    rw [two_mul, Real.exp_add]
  have h3 : Real.exp (-x) = (Real.exp x)⁻¹ := Real.exp_neg x
  have h4 : Real.exp x * Real.exp x + 1 > 0 := by positivity
  rw [h2, h3]
  field_simp

/-- The hyperbolic tangent is monotone. -/
theorem tanh_le_tanh (x y : ℝ) (h : x ≤ y) : Real.tanh x ≤ Real.tanh y := by
  rw [tanh_eq_exp, tanh_eq_exp]
  have ha : 0 < Real.exp (2 * x) := Real.exp_pos _
  have hb : 0 < Real.exp (2 * y) := Real.exp_pos _
  have hab : Real.exp (2 * x) ≤ Real.exp (2 * y) := Real.exp_le_exp.mpr (by linarith)
  rw [div_le_div_iff₀ (by positivity) (by positivity)]
  nlinarith

/-- On the open unit interval, tanh inverts the arctanh formula. -/
theorem tanh_arctanhR (r : ℝ) (h1 : -1 < r) (h2 : r < 1) : Real.tanh (arctanhR r) = r := by
  have hn : (0 : ℝ) < 1 + r := by linarith
  have hd : (0 : ℝ) < 1 - r := by linarith
  have hu : (0 : ℝ) < (1 + r) / (1 - r) := div_pos hn hd
  rw [tanh_eq_exp, arctanhR]
  have h3 : 2 * (Real.log ((1 + r) / (1 - r)) / 2) = Real.log ((1 + r) / (1 - r)) := by ring
  rw [h3, Real.exp_log hu]
  have h4 : (1 : ℝ) - r ≠ 0 := ne_of_gt hd
  rw [div_sub_one (by exact h4), div_add_one (by exact h4), div_div_div_cancel_right₀]
  · field_simp
    ring
  · exact h4

/-- C6: for every sample count n of at least 4 (hence for every produced
correlation result, whose n is at least 10) and every correlation
coefficient r in the closed unit interval, the Fisher-transform confidence
interval with critical value 1.96 brackets r. -/
theorem correlationCIBounds (r : ℝ) (n : Nat) (hn : 4 ≤ n) (hlo : -1 ≤ r) (hhi : r ≤ 1) :
    fisherCILower r n ≤ r ∧ r ≤ fisherCIUpper r n := by
  unfold fisherCILower fisherCIUpper
  by_cases hm1 : r ≤ -1
  · rw [if_pos hm1, if_pos hm1]
    constructor <;> linarith
  · rw [if_neg hm1, if_neg hm1]
    by_cases hp1 : 1 ≤ r
    · rw [if_pos hp1, if_pos hp1]
      constructor <;> linarith
    · rw [if_neg hp1, if_neg hp1]
      push_neg at hm1 hp1
      have hc : 0 ≤ 196 / 100 * (1 / Real.sqrt ((n : ℝ) - 3)) := by positivity
      have hinv := tanh_arctanhR r hm1 hp1
      constructor
      · calc Real.tanh (arctanhR r - 196 / 100 * (1 / Real.sqrt ((n : ℝ) - 3)))
            ≤ Real.tanh (arctanhR r) := tanh_le_tanh _ _ (by linarith)
          _ = r := hinv
      · calc r = Real.tanh (arctanhR r) := hinv.symm
          _ ≤ Real.tanh (arctanhR r + 196 / 100 * (1 / Real.sqrt ((n : ℝ) - 3))) :=
            tanh_le_tanh _ _ (by linarith)

/-- Witness for C6 at r = 1/2 and n = 10. -/
theorem correlationCIBoundsWitness :
    fisherCILower (1 / 2) 10 ≤ (1 / 2 : ℝ) ∧ (1 / 2 : ℝ) ≤ fisherCIUpper (1 / 2) 10 :=
  correlationCIBounds (1 / 2) 10 (by norm_num) (by norm_num) (by norm_num)

/- ===================== Theorems: regression column selection ===================== -/

/-- C7 evaluation at the failing input: with categorical variable of
interest G (dummy-encoded, appended after the in-place columns) and numeric
control G2 whose name contains G as a substring, the design columns are
G2 then G_b, and the reported coefficient is the fitted parameter of the
control column G2 (position 1 under the constant-prepended fit, value 10
under constKernels), not that of G_b, the first and only encoded column of
the variable of interest (position 2, value 20). -/
theorem regressionShadowEval :
    inferVariableType (colVals shadowEx "G") = VariableType.categorical ∧
    (buildDesign shadowEx ["G", "G2"]).map (fun col => col.1) = ["G2", "G_b"] ∧
    (linearRegression constKernels shadowEx "T" "G" ["G2"] VariableType.categorical).map
      (fun res => res.coefficient) = some (some 10) ∧
    ((10 : ℚ) = 20 → False) := by decide

/- ===================== Theorems: external-data analysis ===================== -/

/-- C8 evaluation at the failing input: the summary field named
external_variables holds the donor identifiers of the external map (the
outer dict keys), not the names of the injected variables, while the other
summary fields report the merged-frame sample count and the trait and
variable counts. -/
theorem externalSummaryEval :
    (runExternalDataAnalysis constKernels extBaseFrame ["T1"] extRequest).2.external_variables
      = some ["RRID:A"] ∧
    (extRequest.external_data.getD []).flatMap (fun p => p.2.map (fun kv => kv.1)) = ["GCK"] ∧
    ((["RRID:A"] : List String) = ["GCK"] → False) ∧
    (runExternalDataAnalysis constKernels extBaseFrame ["T1"] extRequest).2.n_samples = 1 ∧
    (runExternalDataAnalysis constKernels extBaseFrame ["T1"] extRequest).2.traits_analyzed
      = some 1 ∧
    (runExternalDataAnalysis constKernels extBaseFrame ["T1"] extRequest).2.variables_analyzed
      = some 1 := by decide

/-- A row whose head binds the requested column reads that binding. -/
theorem getCell_cons_self (k : String) (v : Option Value) (rest : Row) :
    getCell ((k, v) :: rest) k = v := by
  unfold getCell
  rw [List.find?_cons_of_pos _ (by simp)]

/-- Appending a row whose key cell matches the left key cell does not change
the key cell read from the combined row. -/
theorem getCell_append_keyEq (l r : Row) (k : String)
    (h : keyEq (getCell l k) (getCell r k) = true) : getCell (l ++ r) k = getCell l k := by
  unfold getCell at h ⊢
  rw [List.find?_append]
  cases hf : l.find? (fun p => p.1 == k) with
  | some p => simp
  | none =>
    rw [hf] at h
    cases hg : r.find? (fun p => p.1 == k) with
    | none => simp [hg]
    | some p2 =>
      rw [hg] at h
      have h2 : keyEq none p2.2 = true := by simp at h; exact h
      cases hp2 : p2.2 with
      | none => simp [hg, hp2]
      | some v => rw [hp2] at h2; simp [keyEq] at h2

/-- Appending a row binding none of the requested column does not change the
cell read from the combined row. -/
theorem getCell_append_names (l b : Row) (k : String)
    (hb : ∀ p ∈ b, (p.1 == k) = false) : getCell (l ++ b) k = getCell l k := by
  unfold getCell
  rw [List.find?_append]
  cases hf : l.find? (fun p => p.1 == k) with
  | some p => simp
  | none =>
    have : b.find? (fun p => p.1 == k) = none := by
      rw [List.find?_eq_none]
      intro x hx
      simp [hb x hx]
    simp [this]

/-- Elements of a deduplicated list come from the input. -/
theorem mem_uniqBy {α : Type} (eq : α → α → Bool) (l : List α) (x : α)
    (h : x ∈ uniqBy eq l) : x ∈ l := by
  induction l with
  | nil => simp [uniqBy] at h
  | cons a as ih =>
    rw [uniqBy] at h
    rcases List.mem_cons.mp h with rfl | h2
    · exact List.mem_cons_self _ _
    · exact List.mem_cons_of_mem _ (ih (List.mem_of_mem_filter h2))

/-- The deduplicated list is pairwise unequal under the equality used. -/
theorem pairwise_uniqBy {α : Type} (eq : α → α → Bool) (l : List α) :
    (uniqBy eq l).Pairwise (fun a b => eq a b = false) := by
  induction l with
  | nil => exact List.Pairwise.nil
  | cons a as ih =>
    rw [uniqBy]
    refine List.Pairwise.cons ?_ (ih.filter _)
    intro b hb
    have := List.of_mem_filter hb
    simpa using this

/-- Lists that contribute at most a singleton per element concatenate to a
sublist of the per-element map. -/
theorem flatMap_sublist_map {α β : Type} (l : List α) (f : α → List β) (g : α → β)
    (h : ∀ a ∈ l, f a = [] ∨ f a = [g a]) : (l.flatMap f).Sublist (l.map g) := by
  induction l with
  | nil => simp
  | cons a as ih =>
    rw [List.flatMap_cons, List.map_cons]
    have hrest := ih (fun x hx => h x (List.mem_cons_of_mem _ hx))
    rcases h a (List.mem_cons_self a as) with ha | ha
    · rw [ha]
      exact List.Sublist.cons _ hrest
    · rw [ha]
      exact List.Sublist.cons₂ _ hrest

/-- With distinct external donor keys, at most one external record matches a
key cell. -/
theorem countP_keyEq_le_one (data : List (String × List (String × ℚ))) (c : Option Value)
    (hk : (data.map (fun p => p.1)).Nodup) :
    data.countP (fun p => keyEq c (some (Value.str p.1))) ≤ 1 := by
  cases c with
  | none =>
    have : data.countP (fun p => keyEq none (some (Value.str p.1))) = 0 := by
      rw [List.countP_eq_zero]
      intro p hp
      simp [keyEq]
    omega
  | some v =>
    cases v with
    | num q =>
      have : data.countP (fun p => keyEq (some (Value.num q)) (some (Value.str p.1))) = 0 := by
        rw [List.countP_eq_zero]
        intro p hp
        simp [keyEq, valEq]
      omega
    | bool b =>
      have : data.countP (fun p => keyEq (some (Value.bool b)) (some (Value.str p.1))) = 0 := by
        rw [List.countP_eq_zero]
        intro p hp
        simp [keyEq, valEq]
      omega
    | str s =>
      have h1 : data.countP (fun p => keyEq (some (Value.str s)) (some (Value.str p.1)))
          = (data.map (fun p => p.1)).countP (fun t => s == t) := by
        rw [List.countP_map]
        apply List.countP_congr
        intro p hp
        simp [keyEq, valEq, Function.comp]
      have h2 : (data.map (fun p => p.1)).countP (fun t => s == t)
          = (data.map (fun p => p.1)).count s := by
        rw [List.count]
        apply List.countP_congr
        intro t ht
        simp [BEq.comm]
      rw [h1, h2]
      exact List.nodup_iff_count_le_one.mp hk s

/-- The external frame rows read their donor identifier from their head
binding. -/
theorem externalFrame_getRRID (data : List (String × List (String × ℚ)))
    (p : String × List (String × ℚ)) :
    getCell (("RRID", some (Value.str p.1)) ::
      (uniqBy (fun a b => a == b) (data.flatMap (fun q => q.2.map (fun kv => kv.1)))).map
        (fun c => (c, (p.2.find? (fun kv => kv.1 == c)).map (fun kv => Value.num kv.2))))
      "RRID" = some (Value.str p.1) :=
  getCell_cons_self _ _ _

/-- The per-left-row contribution of the external inner merge to the donor
identifier column: the identifier once when the external map holds a
matching key, nothing otherwise. -/
theorem externalMerge_contrib (l : Row) (data : List (String × List (String × ℚ)))
    (hk : (data.map (fun p => p.1)).Nodup) :
    (((externalFrame data).rows.filter
        (fun er => keyEq (getCell l "RRID") (getCell er "RRID"))).map
      (fun m => getCell (l ++ m) "RRID"))
    = (if data.any (fun p => keyEq (getCell l "RRID") (some (Value.str p.1)))
       then [getCell l "RRID"] else []) := by
  have hrows : (externalFrame data).rows = data.map (fun p =>
      ("RRID", some (Value.str p.1)) ::
        (uniqBy (fun a b => a == b) (data.flatMap (fun q => q.2.map (fun kv => kv.1)))).map
          (fun c => (c, (p.2.find? (fun kv => kv.1 == c)).map (fun kv => Value.num kv.2)))) := rfl
  rw [hrows, List.filter_map]
  have hpred : ∀ p ∈ data,
      (keyEq (getCell l "RRID")
        (getCell (("RRID", some (Value.str p.1)) ::
          (uniqBy (fun a b => a == b) (data.flatMap (fun q => q.2.map (fun kv => kv.1)))).map
            (fun c => (c, (p.2.find? (fun kv => kv.1 == c)).map (fun kv => Value.num kv.2))))
          "RRID"))
      = (keyEq (getCell l "RRID") (some (Value.str p.1))) := by
    intro p hp
    rw [externalFrame_getRRID]
  rw [List.filter_congr (by intro p hp; rw [Function.comp_apply, hpred p hp])]
  rw [List.map_map]
  have hmapc : ∀ p ∈ data.filter (fun p => keyEq (getCell l "RRID") (some (Value.str p.1))),
      ((fun m => getCell (l ++ m) "RRID") ∘ (fun p =>
        ("RRID", some (Value.str p.1)) ::
          (uniqBy (fun a b => a == b) (data.flatMap (fun q => q.2.map (fun kv => kv.1)))).map
            (fun c => (c, (p.2.find? (fun kv => kv.1 == c)).map (fun kv => Value.num kv.2))))) p
      = getCell l "RRID" := by
    intro p hp
    have hkey := List.of_mem_filter hp
    rw [Function.comp_apply, getCell_append_keyEq]
    rw [externalFrame_getRRID]
    exact hkey
  rw [List.map_congr_left hmapc, List.map_const']
  have hle := countP_keyEq_le_one data (getCell l "RRID") hk
  rw [List.countP_eq_length_filter] at hle
  by_cases hany : data.any (fun p => keyEq (getCell l "RRID") (some (Value.str p.1))) = true
  · rw [if_pos hany]
    have hpos : 0 < (data.filter
        (fun p => keyEq (getCell l "RRID") (some (Value.str p.1)))).length := by
      rw [← List.countP_eq_length_filter, List.countP_pos_iff]
      obtain ⟨p, hp, hpk⟩ := List.any_eq_true.mp hany
      exact ⟨p, hp, hpk⟩
    have hlen : (data.filter
        (fun p => keyEq (getCell l "RRID") (some (Value.str p.1)))).length = 1 := by omega
    rw [hlen]
    rfl
  · rw [if_neg hany]
    have hlen : (data.filter
        (fun p => keyEq (getCell l "RRID") (some (Value.str p.1)))).length = 0 := by
      rw [← List.countP_eq_length_filter, List.countP_eq_zero]
      intro p hp
      by_contra hc
      exact hany (List.any_eq_true.mpr ⟨p, hp, by simpa using hc⟩)
    rw [hlen]
    rfl

/-- C9: the external-variable merge is an inner join on the donor
identifier — with distinct external donor keys (a Python dict), the donor
identifier column of the merged frame is exactly that of the filtered-frame
rows whose identifier occurs in the external map, each such row surviving
exactly once; and with an absent or empty external map, the analysis
returns no results and a summary of zero samples, the embedding being total
so no error reaches the caller. -/
theorem externalMergeInnerJoin :
    (∀ (df : Frame) (data : List (String × List (String × ℚ))),
      (data.map (fun p => p.1)).Nodup →
      ((innerMergeOn "RRID" df (externalFrame data)).rows.map (fun r => getCell r "RRID"))
        = ((df.rows.filter (fun r =>
              data.any (fun p => keyEq (getCell r "RRID") (some (Value.str p.1))))).map
            (fun r => getCell r "RRID"))) ∧
    (∀ (K : StatKernels) (mergedDf : Frame) (allTraitCols : List String)
        (req : ExtDataRequest),
      req.external_data = none ∨ req.external_data = some [] →
      (runExternalDataAnalysis K mergedDf allTraitCols req).1 = [] ∧
      (runExternalDataAnalysis K mergedDf allTraitCols req).2.n_samples = 0) := by
  constructor
  · intro df data hk
    have hrows : (innerMergeOn "RRID" df (externalFrame data)).rows
        = df.rows.flatMap (fun l =>
            ((externalFrame data).rows.filter
              (fun er => keyEq (getCell l "RRID") (getCell er "RRID"))).map
              (fun m => l ++ m)) := rfl
    rw [hrows, List.map_flatMap]
    induction df.rows with
    | nil => rfl
    | cons r rs ih =>
      rw [List.flatMap_cons, List.filter_cons]
      have hc := externalMerge_contrib r data hk
      rw [List.map_map]
      simp only [Function.comp_def]
      by_cases hany : data.any (fun p => keyEq (getCell r "RRID") (some (Value.str p.1))) = true
      · rw [if_pos hany] at hc
        simp only [hany, if_true, List.map_cons]
        rw [hc, ih]
        rfl
      · rw [if_neg hany] at hc
        simp only [Bool.not_eq_true] at hany
        simp only [hany, Bool.false_eq_true, if_false]
        rw [hc, ih]
        rfl
  · intro K mergedDf allTraitCols req h
    unfold runExternalDataAnalysis
    by_cases hf : ((applyFilters mergedDf req.filter_criteria).rows.length == 0) = true
    · rw [if_pos hf]
      exact ⟨rfl, rfl⟩
    · rw [if_neg hf]
      rcases h with h | h <;> rw [h]
      · exact ⟨rfl, rfl⟩
      · simp only [List.isEmpty_nil, if_true]
        constructor <;> trivial

/-- Witness for C9: the two-donor external map against the two-donor frame
(one donor shared) and the absent-map request. -/
theorem externalMergeInnerJoinWitness :
    (((innerMergeOn "RRID" extBaseFrame (externalFrame extData2)).rows.map
        (fun r => getCell r "RRID"))
      = ((extBaseFrame.rows.filter (fun r =>
            extData2.any (fun p => keyEq (getCell r "RRID") (some (Value.str p.1))))).map
          (fun r => getCell r "RRID"))) ∧
    (runExternalDataAnalysis constKernels extBaseFrame ["T1"] extRequestNone).1 = [] ∧
    (runExternalDataAnalysis constKernels extBaseFrame ["T1"] extRequestNone).2.n_samples = 0 :=
  ⟨externalMergeInnerJoin.1 extBaseFrame extData2 (by decide),
   externalMergeInnerJoin.2 constKernels extBaseFrame ["T1"] extRequestNone (Or.inl rfl)⟩

/- ===================== Theorems: merge cardinality ===================== -/

/-- Python value equality holds exactly when the canonical representatives
(True and False collapsing onto 1 and 0) coincide. -/
theorem valEq_true_iff (a b : Value) : valEq a b = true ↔ pyRep a = pyRep b := by
  cases a with
  | str s =>
    cases b with
    | str t => simp [valEq, pyRep]
    | num q => simp [valEq, pyRep]
    | bool x => cases x <;> simp [valEq, pyRep]
  | num q =>
    cases b with
    | str t => simp [valEq, pyRep]
    | num p => simp [valEq, pyRep]
    | bool x => cases x <;> simp [valEq, pyRep]
  | bool x =>
    cases b with
    | str t => cases x <;> simp [valEq, pyRep]
    | num p => cases x <;> simp [valEq, pyRep] <;> exact eq_comm
    | bool y => cases x <;> cases y <;> simp [valEq, pyRep]

/-- Merge-key equality holds exactly when the mapped representatives
coincide (null matching only null). -/
theorem keyEq_true_iff (a b : Option Value) :
    keyEq a b = true ↔ Option.map pyRep a = Option.map pyRep b := by
  cases a <;> cases b <;> simp [keyEq, valEq_true_iff]

/-- Merge-key equality is symmetric. -/
theorem keyEq_symm_true (a b : Option Value) (h : keyEq a b = true) : keyEq b a = true := by
  rw [keyEq_true_iff] at h ⊢
  exact h.symm

/-- Merge-key equality is transitive. -/
theorem keyEq_trans (a b c : Option Value) (h1 : keyEq a b = true) (h2 : keyEq b c = true) :
    keyEq a c = true := by
  rw [keyEq_true_iff] at h1 h2 ⊢
  exact h1.trans h2

/-- Under pairwise-distinct keys, at most one row matches any key cell. -/
theorem length_filter_keyEq_le_one {α : Type} (g : α → Option Value) (rows : List α)
    (c : Option Value)
    (hp : (rows.map g).Pairwise (fun a b => keyEq a b = false)) :
    (rows.filter (fun r => keyEq c (g r))).length ≤ 1 := by
  induction rows with
  | nil => simp
  | cons r rs ih =>
    rw [List.map_cons, List.pairwise_cons] at hp
    obtain ⟨hr, hrs⟩ := hp
    rw [List.filter_cons]
    by_cases hc : keyEq c (g r) = true
    · simp only [hc, if_true, List.length_cons]
      have hnil : rs.filter (fun x => keyEq c (g x)) = [] := by
        rw [List.filter_eq_nil_iff]
        intro x hx hcx
        have h1 : keyEq (g r) c = true := keyEq_symm_true _ _ hc
        have h2 : keyEq (g r) (g x) = true := keyEq_trans _ _ _ h1 (by simpa using hcx)
        have h3 := hr (g x) (List.mem_map_of_mem g hx)
        rw [h3] at h2
        cases h2
      rw [hnil]
      simp
    · simp only [hc, Bool.false_eq_true, if_false]
      exact ih hrs

/-- Per-element singleton (or empty) contributions concatenate to exactly
the per-element map. -/
theorem flatMap_eq_map {α β : Type} (l : List α) (f : α → List β) (g : α → β)
    (h : ∀ a ∈ l, f a = [g a]) : l.flatMap f = l.map g := by
  induction l with
  | nil => rfl
  | cons a as ih =>
    rw [List.flatMap_cons, List.map_cons, h a (List.mem_cons_self _ _),
      ih (fun x hx => h x (List.mem_cons_of_mem _ hx))]
    rfl

/-- The donor identifiers of the donor-trait inner merge are pairwise
distinct when both sources are: each donor row contributes its own
identifier at most once. -/
theorem innerMerge_rrid_pairwise (dn tr : Frame)
    (hd : (dn.rows.map (fun r => getCell r "RRID")).Pairwise (fun a b => keyEq a b = false))
    (ht : (tr.rows.map (fun r => getCell r "RRID")).Pairwise (fun a b => keyEq a b = false)) :
    ((innerMergeOn "RRID" dn tr).rows.map (fun r => getCell r "RRID")).Pairwise
      (fun a b => keyEq a b = false) := by
  have hrows : (innerMergeOn "RRID" dn tr).rows = dn.rows.flatMap (fun l =>
      (tr.rows.filter (fun r => keyEq (getCell l "RRID") (getCell r "RRID"))).map
        (fun m => l ++ m)) := rfl
  rw [hrows, List.map_flatMap]
  refine hd.sublist ?_
  apply flatMap_sublist_map
  intro l hl
  rw [List.map_map]
  have hlen := length_filter_keyEq_le_one (fun r => getCell r "RRID") tr.rows
    (getCell l "RRID") ht
  simp only [] at hlen
  cases hfl : tr.rows.filter (fun r => keyEq (getCell l "RRID") (getCell r "RRID")) with
  | nil => left; rfl
  | cons m ms =>
    rw [hfl] at hlen
    have hms : ms = [] := by
      cases ms with
      | nil => rfl
      | cons x xs => simp at hlen
    subst hms
    right
    have hm : m ∈ tr.rows.filter
        (fun r => keyEq (getCell l "RRID") (getCell r "RRID")) := by
      rw [hfl]; exact List.mem_cons_self _ _
    have hkey := List.of_mem_filter hm
    rw [List.map_cons, List.map_nil, Function.comp_apply,
      getCell_append_keyEq l m "RRID" hkey]

/-- The left join with a right frame of pairwise-distinct keys that binds no
RRID column preserves the donor identifier list exactly: each left row
survives once, matched or padded. -/
theorem leftMerge_rrid_map (mg bio2 : Frame)
    (hpair : (bio2.rows.map (fun r => getCell r "Accession")).Pairwise
      (fun a b => keyEq a b = false))
    (hnames : ∀ r ∈ bio2.rows, ∀ p ∈ r, (p.1 == "RRID") = false)
    (hcols : ∀ c ∈ bio2.cols, (c == "RRID") = false) :
    ((leftMergeOn "Accession" mg bio2).rows.map (fun r => getCell r "RRID"))
      = mg.rows.map (fun r => getCell r "RRID") := by
  have hrows : (leftMergeOn "Accession" mg bio2).rows = mg.rows.flatMap (fun l =>
      match bio2.rows.filter
        (fun r => keyEq (getCell l "Accession") (getCell r "Accession")) with
      | [] => [l ++ nullPad "Accession" bio2]
      | ms => ms.map (fun m => l ++ m)) := rfl
  rw [hrows, List.map_flatMap]
  apply flatMap_eq_map
  intro l hl
  have hlen := length_filter_keyEq_le_one (fun r => getCell r "Accession") bio2.rows
    (getCell l "Accession") hpair
  simp only [] at hlen
  cases hfl : bio2.rows.filter
      (fun r => keyEq (getCell l "Accession") (getCell r "Accession")) with
  | nil =>
    have hpad : ∀ p ∈ nullPad "Accession" bio2, (p.1 == "RRID") = false := by
      intro p hp
      obtain ⟨c, hc, rfl⟩ := List.mem_map.mp hp
      exact hcols c (List.mem_of_mem_filter hc)
    show List.map (fun r => getCell r "RRID") [l ++ nullPad "Accession" bio2]
      = [getCell l "RRID"]
    rw [List.map_cons, List.map_nil, getCell_append_names l _ "RRID" hpad]
  | cons m ms =>
    rw [hfl] at hlen
    have hms : ms = [] := by
      cases ms with
      | nil => rfl
      | cons x xs => simp at hlen
    subst hms
    have hm : m ∈ bio2.rows.filter
        (fun r => keyEq (getCell l "Accession") (getCell r "Accession")) := by
      rw [hfl]; exact List.mem_cons_self _ _
    have hmrow := List.mem_of_mem_filter hm
    show List.map (fun r => getCell r "RRID") (List.map (fun x => l ++ x) [m])
      = [getCell l "RRID"]
    rw [List.map_cons, List.map_nil, List.map_cons, List.map_nil,
      getCell_append_names l m "RRID" (hnames m hmrow)]

/-- Every column label of the renamed biosample view differs from RRID: it
is either the Accession key or carries the biosample marker. -/
theorem renameNs_ne_rrid (c : String) :
    (renameBiosampleNs (renameDonorsAccession c) == "RRID") = false := by
  unfold renameDonorsAccession renameBiosampleNs
  by_cases h1 : (c == "Donors") = true
  · rw [if_pos h1]
    decide
  · rw [if_neg h1]
    by_cases h2 : (c == "Accession") = true
    · rw [if_pos h2]
      have : c = "Accession" := by simpa using h2
      rw [this]
      decide
    · rw [if_neg h2]
      have : ("biosample_" ++ c) ≠ "RRID" := by
        intro he
        have hlen := congrArg String.length he
        rw [String.length_append] at hlen
        have h10 : ("biosample_" : String).length = 10 := rfl
        have h4 : ("RRID" : String).length = 4 := rfl
        rw [h10, h4] at hlen
        omega
      simpa using this

/-- No binding of a renamed biosample row is named RRID. -/
theorem bio_names_ne_rrid (bio : Frame) :
    ∀ r ∈ (biosampleByDonor bio).rows, ∀ p ∈ r, (p.1 == "RRID") = false := by
  intro r hr p hp
  have hrows : (biosampleByDonor bio).rows
      = ((groupbyFirst bio "Donors").rows.map
          (fun row => row.map (fun q => (renameDonorsAccession q.1, q.2)))).map
          (fun row => row.map (fun q => (renameBiosampleNs q.1, q.2))) := rfl
  rw [hrows] at hr
  obtain ⟨r1, hr1, rfl⟩ := List.mem_map.mp hr
  obtain ⟨r0, hr0, rfl⟩ := List.mem_map.mp hr1
  obtain ⟨p1, hp1, rfl⟩ := List.mem_map.mp hp
  obtain ⟨p0, hp0, rfl⟩ := List.mem_map.mp hp1
  exact renameNs_ne_rrid p0.1

/-- No column label of the renamed biosample view is RRID. -/
theorem bio_cols_ne_rrid (bio : Frame) :
    ∀ c ∈ (biosampleByDonor bio).cols, (c == "RRID") = false := by
  intro c hc
  have hcols : (biosampleByDonor bio).cols
      = (((groupbyFirst bio "Donors").cols.map renameDonorsAccession).map
          renameBiosampleNs) := rfl
  rw [hcols] at hc
  obtain ⟨c1, hc1, rfl⟩ := List.mem_map.mp hc
  obtain ⟨c0, hc0, rfl⟩ := List.mem_map.mp hc1
  exact renameNs_ne_rrid c0

/-- The Accession cells of the renamed biosample view are the distinct
non-null Donors keys, hence pairwise never merge-equal. -/
theorem bio_accession_pairwise (bio : Frame) :
    ((biosampleByDonor bio).rows.map (fun r => getCell r "Accession")).Pairwise
      (fun a b => keyEq a b = false) := by
  have hrows : (biosampleByDonor bio).rows
      = (uniqBy valEq (bio.rows.filterMap (fun r => getCell r "Donors"))).map
          (fun k =>
            (((("Donors", some k) ::
                (bio.cols.filter (fun c => c != "Donors")).map
                  (fun c => (c, ((bio.rows.filter
                    (fun r => keyEq (getCell r "Donors") (some k))).filterMap
                      (fun r => getCell r c)).head?))).map
                (fun q => (renameDonorsAccession q.1, q.2))).map
              (fun q => (renameBiosampleNs q.1, q.2)))) := by
    show ((groupbyFirstRows bio "Donors").map _).map _ = _
    rw [groupbyFirstRows, List.map_map, List.map_map]
    rfl
  rw [hrows, List.map_map]
  have hcell : ∀ k, ((fun r => getCell r "Accession") ∘ (fun k =>
      (((("Donors", some k) ::
          (bio.cols.filter (fun c => c != "Donors")).map
            (fun c => (c, ((bio.rows.filter
              (fun r => keyEq (getCell r "Donors") (some k))).filterMap
                (fun r => getCell r c)).head?))).map
          (fun q => (renameDonorsAccession q.1, q.2))).map
        (fun q => (renameBiosampleNs q.1, q.2))))) k = some k := by
    intro k
    rw [Function.comp_apply, List.map_cons, List.map_cons]
    have h1 : renameBiosampleNs (renameDonorsAccession "Donors") = "Accession" := by decide
    rw [h1]
    exact getCell_cons_self _ _ _
  rw [List.map_congr_left (fun k _ => hcell k)]
  have hpw := pairwise_uniqBy valEq (bio.rows.filterMap (fun r => getCell r "Donors"))
  refine List.Pairwise.map some ?_ hpw
  intro a b hab
  simpa [keyEq] using hab

/-- C1: when the donor and trait sources each hold at most one record per
donor identifier, the merged Analysis Frame holds at most one row per donor
identifier (its RRID cells are pairwise never merge-equal), even when the
biosample source holds several records for one donor — the aggregated
biosample view is keyed by distinct donors before the left join, so the
join multiplies no rows. -/
theorem mergeCardinality (donorDf traitsDf : Frame) (bioDf : Option Frame)
    (hd : (donorDf.rows.map (fun r => getCell r "RRID")).Pairwise
      (fun a b => keyEq a b = false))
    (ht : (traitsDf.rows.map (fun r => getCell r "RRID")).Pairwise
      (fun a b => keyEq a b = false)) :
    ((createMergedDataframe donorDf traitsDf bioDf).rows.map
      (fun r => getCell r "RRID")).Pairwise (fun a b => keyEq a b = false) := by
  cases bioDf with
  | none => exact innerMerge_rrid_pairwise _ _ hd ht
  | some bio =>
    have hmg := innerMerge_rrid_pairwise _ _ hd ht
    have heq := leftMerge_rrid_map (innerMergeOn "RRID" donorDf traitsDf)
      (biosampleByDonor bio) (bio_accession_pairwise bio) (bio_names_ne_rrid bio)
      (bio_cols_ne_rrid bio)
    show ((leftMergeOn "Accession" (innerMergeOn "RRID" donorDf traitsDf)
      (biosampleByDonor bio)).rows.map (fun r => getCell r "RRID")).Pairwise
      (fun a b => keyEq a b = false)
    rw [heq]
    exact hmg

/-- Witness for C1 at concrete sources, the biosample source holding two
records for one donor. -/
theorem mergeCardinalityWitness :
    ((createMergedDataframe donorEx traitsEx (some bioEx)).rows.map
      (fun r => getCell r "RRID")).Pairwise (fun a b => keyEq a b = false) :=
  mergeCardinality donorEx traitsEx (some bioEx) (by decide) (by decide)
